import Mathlib

/-!
Verification development for the media download queue janitor
(sonarr-radarr-queue-cleaner).  The definitions below are a shallow
embedding of the Python sources: `core/utils.py` (item accessors),
`core/rules.py` (rule evaluator), `core/config.py` (effective-settings
resolver), `storage/strikes.py` (ledger normalization) and
`cleaner.py` (`process_queue_item`, the decision engine).

Modelling conventions:
- Python floats and timestamps are modelled as `ℚ`, Python ints as `ℤ`.
- A dict field that may be absent or `None` is an `Option`; the two are
  conflated (every code path below checks presence together with
  non-`None`-ness, or treats both as falsy).
- Python truthiness is modelled explicitly at each use site
  (`pyOrStr`, `pyOrOptInt`, `qTruthy`, `CVal.truthy`, ...).
- Exceptions swallowed by `try/except` blocks in the source cannot fire
  on the typed field model (all `int()`/`float()` coercions are applied
  to values that are already numeric), with one exception: `is_torrent`
  applied to an integer `protocol`, which is modelled separately by
  `is_torrent_dyn` over dynamically typed values.
-/

namespace Cleaner

/-- Python substring test `nee in hay` on lists of characters. -/
def subListAux (nee : List Char) : List Char → Bool
  | [] => nee.isEmpty
  | c :: rest => decide ((c :: rest).take nee.length = nee) || subListAux nee rest

/-- Python substring test `nee in hay` on strings. -/
def pyIn (nee hay : String) : Bool := subListAux nee.data hay.data

/-- Python `str.lower()` (ASCII case folding), as a structural map over
the character list so that it reduces in the kernel. -/
def strLower (s : String) : String := ⟨s.data.map Char.toLower⟩

/-- Python `a or b` on two optional strings (`None` and `""` are falsy). -/
def pyOrStr : Option String → Option String → Option String
  | some s, b => if s = "" then b else some s
  | none, b => b

/-- Python `(x or '').lower()` for an optional string. -/
def optLower (a : Option String) : String := strLower (a.getD "")

/-- Python `a or b` where `a` is an optional integer (`None` and `0` falsy). -/
def pyOrOptInt : Option Int → Option Int → Option Int
  | some n, b => if n = 0 then b else some n
  | none, b => b

/-- Python truthiness filter on an optional float/timestamp:
`None` and `0` are falsy, every other value is kept. -/
def qTruthy : Option ℚ → Option ℚ
  | some q => if q = 0 then none else some q
  | none => none

/-- Python truthiness filter on an optional string (used where the source
writes `if val:` on a string field). -/
def truthyStr : Option String → Option String
  | some s => if s = "" then none else some s
  | none => none

/-- Python `int()` applied to a rational (float): truncation toward zero. -/
def ratTrunc (q : ℚ) : Int := q.num / (q.den : Int)

/-!
`Rat.add`, `Rat.sub`, `Rat.mul` and division on `ℚ` are `@[irreducible]`
in this toolchain and do not evaluate under `decide`/`rfl`.  The model
therefore uses the following wrappers, built on `Rat.divInt` (which does
reduce); the `qAdd_eq`/`qSub_eq`/`qMul_eq`/`qDiv_eq` theorems prove them
equal to the standard rational operations.
-/

/-- Rational addition, kernel-reducible. -/
def qAdd (a b : ℚ) : ℚ := Rat.divInt (a.num * (b.den : Int) + b.num * (a.den : Int)) ((a.den : Int) * (b.den : Int))

/-- Rational subtraction, kernel-reducible. -/
def qSub (a b : ℚ) : ℚ := Rat.divInt (a.num * (b.den : Int) - b.num * (a.den : Int)) ((a.den : Int) * (b.den : Int))

/-- Rational multiplication, kernel-reducible. -/
def qMul (a b : ℚ) : ℚ := Rat.divInt (a.num * b.num) ((a.den : Int) * (b.den : Int))

/-- Rational division, kernel-reducible. -/
def qDiv (a b : ℚ) : ℚ := Rat.divInt (a.num * (b.den : Int)) ((a.den : Int) * b.num)

theorem qAdd_eq (a b : ℚ) : qAdd a b = a + b := by
  rw [qAdd, Rat.add_def', ← Nat.cast_mul, Rat.divInt_ofNat]

theorem qSub_eq (a b : ℚ) : qSub a b = a - b := by
  rw [qSub, Rat.sub_def', ← Nat.cast_mul, Rat.divInt_ofNat]

theorem qMul_eq (a b : ℚ) : qMul a b = a * b := by
  conv_rhs => rw [← Rat.num_divInt_den a, ← Rat.num_divInt_den b]
  rw [Rat.divInt_mul_divInt _ _ (Int.ofNat_ne_zero.mpr a.den_nz) (Int.ofNat_ne_zero.mpr b.den_nz)]
  rfl

theorem qDiv_eq (a b : ℚ) : qDiv a b = a / b := by
  rw [qDiv, Rat.div_def']

/-- One element of an item's `statusMessages` list; each text field is the
rendered text of `msg.get(key, '')` (absent key = `""`). -/
structure StatusMsg where
  title : String := ""
  messages : String := ""
  message : String := ""
deriving DecidableEq

/-- A nested `release` object (`release`, `remoteEpisode.release`,
`remoteMovie.release`). -/
structure Release where
  seeders : Option Int := none
  seederCount : Option Int := none
  indexer : Option String := none
  indexerName : Option String := none
deriving DecidableEq

/-- A nested `remoteEpisode` / `remoteMovie` object. -/
structure RemoteObj where
  release : Option Release := none
deriving DecidableEq

/-- A manager queue item snapshot, with the fields read by the decision
engine and the rule evaluator.  `protocol` is the string form delivered by
the manager APIs; the dynamically typed case is handled by
`is_torrent_dyn`. -/
structure Item where
  id : Option Int := none
  title : Option String := none
  protocol : Option String := none
  size : Option Int := none
  sizeleft : Option Int := none
  sizeLeft : Option Int := none
  status : Option String := none
  trackedDownloadStatus : Option String := none
  trackedDownloadState : Option String := none
  errorMessage : Option String := none
  statusMessages : List StatusMsg := []
  clientTrackersMsg : Option String := none
  clientState : Option String := none
  clientPeers : Option Int := none
  clientSeeds : Option Int := none
  clientDlSpeed : Option ℚ := none
  downloadId : Option String := none
  downloadID : Option String := none
  seeders : Option Int := none
  seederCount : Option Int := none
  release : Option Release := none
  remoteEpisode : Option RemoteObj := none
  remoteMovie : Option RemoteObj := none
  indexer : Option String := none
  indexerName : Option String := none
deriving DecidableEq

/-- `core/utils.py` `get_downloaded_bytes`: `size - (sizeleft or sizeLeft)`
when both present (note the Python `or`, under which `sizeleft == 0` falls
through to `sizeLeft`). -/
def get_downloaded_bytes (item : Item) : Option Int :=
  match item.size, pyOrOptInt item.sizeleft item.sizeLeft with
  | some s, some l => some (s - l)
  | _, _ => none

/-- `core/utils.py` `get_total_size`. -/
def get_total_size (item : Item) : Option Int := item.size

/-- `core/utils.py` `get_progress_percent`:
`clamp(downloaded/total*100, 0, 100)` when downloaded is known and
`total` is truthy and positive. -/
def get_progress_percent (item : Item) : Option ℚ :=
  match get_downloaded_bytes item, get_total_size item with
  | some d, some t =>
    if 0 < t then some (max 0 (min 100 (qMul (qDiv (d : ℚ) (t : ℚ)) 100))) else none
  | _, _ => none

/-- Seeder lookup inside one `release` object (`seeders`, then
`seederCount`). -/
def relSeeders (r : Release) : Option Int :=
  match r.seeders with
  | some n => some n
  | none => r.seederCount

/-- `core/utils.py` `get_seeders`: top-level fields, then `release.*`,
then `remoteEpisode.release.*`, then `remoteMovie.release.*`. -/
def get_seeders (item : Item) : Option Int :=
  match item.seeders with
  | some n => some n
  | none =>
    match item.seederCount with
    | some n => some n
    | none =>
      match item.release.bind relSeeders with
      | some n => some n
      | none =>
        match (item.remoteEpisode.bind (·.release)).bind relSeeders with
        | some n => some n
        | none => (item.remoteMovie.bind (·.release)).bind relSeeders

/-- Indexer lookup inside one `release` object (truthy `indexer`, then
truthy `indexerName`). -/
def relIndexer (r : Release) : Option String :=
  match truthyStr r.indexer with
  | some s => some s
  | none => truthyStr r.indexerName

/-- `core/utils.py` `get_indexer_name`: top-level fields, then
`release.*`, then `remoteEpisode.release.*`, then `remoteMovie.release.*`;
only truthy (non-empty) values are returned. -/
def get_indexer_name (item : Item) : Option String :=
  match truthyStr item.indexer with
  | some s => some s
  | none =>
    match truthyStr item.indexerName with
    | some s => some s
    | none =>
      match item.release.bind relIndexer with
      | some s => some s
      | none =>
        match (item.remoteEpisode.bind (·.release)).bind relIndexer with
        | some s => some s
        | none => (item.remoteMovie.bind (·.release)).bind relIndexer

/-- `core/rules.py` `is_torrent` on the string/absent protocol shapes:
a truthy protocol string is tested for the substring `"torrent"`; an
absent or empty protocol falls into the `int(...) == 1` conversion,
which raises (`int(None)` / `int('')`) and is caught, yielding `False`. -/
def is_torrent (item : Item) : Bool :=
  let proto := optLower item.protocol
  if proto ≠ "" then pyIn "torrent" proto else false

/-- A dynamically typed Python value for the `protocol` field. -/
inductive PyProto where
  | none
  | str (s : String)
  | int (n : Int)
deriving DecidableEq

/-- `core/rules.py` `is_torrent` over a dynamically typed `protocol`
value, tracking the exception behaviour of the source:
`(item.get('protocol') or '').lower()` raises `AttributeError` outside of
any `try` block when `protocol` is a truthy non-string (e.g. the integer
`1`); the `int(protocol) == 1` fallback is only reached when the lowered
protocol is falsy, where `int(None)` / `int('')` raise and are caught. -/
def is_torrent_dyn : PyProto → Except String Bool
  | .none => .ok false
  | .str s => if s ≠ "" then .ok (pyIn "torrent" (strLower s)) else .ok false
  | .int n => if n = 0 then .ok false else .error "AttributeError"

/-- Rendered, lowercased text of one status message
(`f"{title} {messages} {message}".lower()`). -/
def msgText (m : StatusMsg) : String :=
  strLower (m.title ++ " " ++ m.messages ++ " " ++ m.message)

/-- `core/rules.py` `is_stalled`. -/
def is_stalled (item : Item) : Bool :=
  let tds := optLower (pyOrStr item.trackedDownloadStatus item.trackedDownloadState)
  let status := optLower item.status
  if tds = "warning" ∨ tds = "error" ∨ tds = "stalled" then true
  else if status = "warning" ∨ status = "stalled" then true
  else if item.statusMessages.any
      (fun m => pyIn "stalled" (msgText m) || pyIn "no connections" (msgText m)) then true
  else
    let em := optLower item.errorMessage
    pyIn "stalled" em || pyIn "no connections" em

/-- `core/rules.py` `is_stalled_extended`, with the accessor callbacks
instantiated to `get_seeders` / `get_progress_percent` as in the caller. -/
def is_stalled_extended (item : Item) (threshold : Option Int) (ceiling : ℚ) : Bool :=
  if is_stalled item then true
  else
    match threshold with
    | some t =>
      if 0 ≤ t then
        if is_torrent item then
          match get_seeders item with
          | some s =>
            if s ≤ t then
              match get_progress_percent item with
              | none => decide (t = 0)
              | some p => decide (p ≤ ceiling)
            else false
          | none => false
        else false
      else false
    | none => false

/-- `core/rules.py` `is_queued`. -/
def is_queued (item : Item) : Bool :=
  let status := optLower item.status
  let tds := optLower (pyOrStr item.trackedDownloadStatus item.trackedDownloadState)
  let cstate := optLower item.clientState
  if pyIn "queued" status || pyIn "pending" status || pyIn "waiting" status then true
  else if pyIn "queued" tds || pyIn "pending" tds || pyIn "waiting" tds then true
  else if pyIn "queue" cstate || pyIn "queued" cstate then true
  else if cstate = "download_wait" ∨ cstate = "check_wait" then true
  else false

/-- A YAML configuration value as it occurs at a rule-engine knob:
a number or a boolean. -/
inductive CVal where
  | num (q : ℚ)
  | bool (b : Bool)
deriving DecidableEq

/-- Python truthiness of a configuration value. -/
def CVal.truthy : CVal → Bool
  | .num q => decide (q ≠ 0)
  | .bool b => b

/-- Python `float(v)` of a configuration value. -/
def CVal.toQ : CVal → ℚ
  | .num q => q
  | .bool b => if b then 1 else 0

/-- Python `int(v)` of a configuration value (floats truncate toward 0). -/
def CVal.toZ : CVal → Int
  | .num q => ratTrunc q
  | .bool b => if b then 1 else 0

/-- One configuration block (`rule_engine`, one `services.<Manager>`
entry, or the settings of one category): a keyed lookup of values. -/
abbrev Block := String → Option CVal

/-- One `categories` list element: its `title_contains` list and its
settings block. -/
structure Category where
  title_contains : List String := []
  block : Block := fun _ => none

/-- One `indexer_policies.<name>` entry. -/
structure IdxPolicy where
  failure_remove_after : Option Int := none
  seeder_stall_threshold : Option Int := none
deriving DecidableEq

/-- The `rule_engine.reannounce` block; `none` fields fall back to the
defaults used at each `rea.get(...)` site in the source. -/
structure ReaCfg where
  enabled : Option Bool := none
  only_when_seeds_zero : Option Bool := none
  cooldown_minutes : Option ℚ := none
  max_attempts : Option Int := none
deriving DecidableEq

/-- The `whitelist` block. -/
structure Whitelist where
  ids : List Int := []
  download_ids : List String := []
  title_contains : List String := []
deriving DecidableEq

/-- The loaded YAML configuration, restricted to the parts consulted by
the rule evaluator and the decision engine.  A missing or non-dict block
in the source is the empty lookup here. -/
structure Config where
  categories : List Category := []
  services : String → Option Block := fun _ => none
  rule_engine : Block := fun _ => none
  reannounce : ReaCfg := {}
  indexer_policies : String → Option IdxPolicy := fun _ => none
  whitelist : Whitelist := {}

/-- `core/config.py` `ConfigAccessor.category_override`: the block of the
first category whose `title_contains` has a lowercased substring of the
item's lowercased title; the empty block otherwise. -/
def category_override (cfg : Config) (item : Item) : Block :=
  let title := optLower item.title
  match cfg.categories.find? (fun cat => cat.title_contains.any (fun s => pyIn (strLower s) title)) with
  | some cat => cat.block
  | none => fun _ => none

/-- `core/config.py` `ConfigAccessor.get_service_setting`: the
per-manager `services` block, then the global `rule_engine` block, then
the caller-supplied default. -/
def get_service_setting (cfg : Config) (svc key : String) (default : CVal) : CVal :=
  match (cfg.services svc).bind (fun b => b key) with
  | some v => v
  | none =>
    match cfg.rule_engine key with
    | some v => v
    | none => default

/-- `core/config.py` `ConfigAccessor.get_effective`: category override
first, then `get_service_setting`. -/
def get_effective (cfg : Config) (svc : String) (item : Item) (key : String) (default : CVal) : CVal :=
  match category_override cfg item key with
  | some v => v
  | none => get_service_setting cfg svc key default

/-- Call-site pattern `float(get_effective(...) or 0)`. -/
def effQor0 (cfg : Config) (svc : String) (item : Item) (key : String) (d : ℚ) : ℚ :=
  let v := get_effective cfg svc item key (.num d)
  if v.truthy then v.toQ else 0

/-- Call-site pattern `int(get_effective(...) or 0)`. -/
def effZor0 (cfg : Config) (svc : String) (item : Item) (key : String) (d : ℚ) : Int :=
  let v := get_effective cfg svc item key (.num d)
  if v.truthy then v.toZ else 0

/-- `core/utils.py` `is_whitelisted` (with the `whitelist` block bound
from the configuration as in `cleaner.py`). -/
def is_whitelisted (wl : Whitelist) (item : Item) : Bool :=
  (match item.id with
   | some i => wl.ids.contains i
   | none => false) ||
  (match pyOrStr item.downloadId item.downloadID with
   | some d => d ≠ "" && wl.download_ids.contains d
   | none => false) ||
  (let title := optLower item.title
   wl.title_contains.any (fun sub => sub ≠ "" && pyIn (strLower sub) title))

/-- The normalized shape of one ledger entry
(`storage/strikes.py` `normalize_strike_entry` output; `seen_ts` is the
legacy field consulted as a fallback for `first_seen_ts`). -/
structure StrikeEntry where
  count : Int := 0
  last_dl : Option Int := none
  first_seen_ts : Option ℚ := none
  last_progress_ts : Option ℚ := none
  last_seen_seeders : Option Int := none
  last_reason : Option String := none
  last_reannounce_ts : Option ℚ := none
  reannounce_attempts : Int := 0
  error_strikes : Int := 0
  seen_ts : Option ℚ := none
deriving DecidableEq

/-- A raw value stored in the strike ledger under an item key: the legacy
shape (a bare integer count) or a dict-shaped entry. -/
abbrev StoredEntry := Int ⊕ StrikeEntry

/-- One `"<manager>:_indexer:<name>"` ledger entry. -/
structure IndexerEntry where
  failures : Option Int := none
  last_ts : Option ℚ := none
deriving DecidableEq

/-- `storage/strikes.py` `normalize_strike_entry`, applied as in
`process_queue_item` to `strike_dict.get(key, {"count": 0, "last_dl": None})`
(the `none` case is the default dict).  `first_seen_ts` follows
`entry.get("first_seen_ts", entry.get("seen_ts", now)) or now`. -/
def normalize_strike_entry (raw : Option StoredEntry) (now : ℚ) : StrikeEntry :=
  match raw with
  | none =>
    { count := 0, last_dl := none, first_seen_ts := some now }
  | some (.inl n) =>
    { count := n, last_dl := none, first_seen_ts := some now }
  | some (.inr e) =>
    { count := e.count
      last_dl := e.last_dl
      first_seen_ts := some
        (match (match e.first_seen_ts with
                | some q => some q
                | none => match e.seen_ts with
                          | some q => some q
                          | none => some now) with
         | some q => if q = 0 then now else q
         | none => now)
      last_progress_ts := e.last_progress_ts
      last_seen_seeders := e.last_seen_seeders
      last_reason := e.last_reason
      last_reannounce_ts := e.last_reannounce_ts
      reannounce_attempts := e.reannounce_attempts
      error_strikes := e.error_strikes
      seen_ts := none }

/-- `storage/strikes.py` `make_strike_key`. -/
def make_strike_key (service_name : String) (item_id : Int) : String :=
  s!"{service_name}:{item_id}"

/-- `entry.get('first_seen_ts') or now`. -/
def firstSeenOf (entry : StrikeEntry) (now : ℚ) : ℚ :=
  (qTruthy entry.first_seen_ts).getD now

/-- `core/rules.py` `evaluate_rules` with the accessor callbacks
instantiated as in `cleaner.py`; `now` is the `time.time()` sample taken
on entry.  Each `return` nested under non-returning `if`s in the source
is compiled to one guard that conjoins its enclosing conditions. -/
def evaluate_rules (cfg : Config) (service_name : String) (item : Item) (entry : StrikeEntry)
    (progressed : Bool)
    (default_grace_minutes default_max_queue_age_hours default_no_progress_max_age_minutes
      default_min_speed_bps default_min_speed_duration_min : ℚ)
    (torrent_seeder_stall_threshold : Option Int)
    (torrent_seeder_stall_progress_ceiling : ℚ) (now : ℚ) : Option String :=
  let first_seen := firstSeenOf entry now
  let grace_min := get_effective cfg service_name item "grace_period_minutes" (.num default_grace_minutes)
  if grace_min.truthy && decide (qSub now first_seen < qMul grace_min.toQ 60) then none
  else
  let max_age_h := get_effective cfg service_name item "max_queue_age_hours" (.num default_max_queue_age_hours)
  if max_age_h.truthy && decide (qSub now first_seen ≥ qMul max_age_h.toQ 3600) then some "max_age"
  else
  let max_age_min := get_effective cfg service_name item "no_progress_max_age_minutes" (.num default_no_progress_max_age_minutes)
  if !progressed && max_age_min.truthy &&
      (match qTruthy entry.last_progress_ts with
       | some lp => decide (qSub now lp ≥ qMul max_age_min.toQ 60)
       | none => false) then some "no_progress_timeout"
  else
  let min_speed := (get_effective cfg service_name item "min_speed_bytes_per_sec" (.num default_min_speed_bps)).toQ
  let min_speed_dur := (get_effective cfg service_name item "min_speed_duration_minutes" (.num default_min_speed_duration_min)).toQ
  if decide (min_speed ≠ 0) && decide (min_speed_dur ≠ 0) && is_torrent item &&
      (match item.clientDlSpeed with
       | some spd =>
         decide (spd < min_speed) &&
         decide (qSub now ((qTruthy entry.last_progress_ts).getD first_seen) ≥ qMul min_speed_dur 60)
       | none => false) then some "min_speed"
  else
  let client_state_as_stalled := (get_effective cfg service_name item "client_state_as_stalled" (.bool false)).truthy
  if client_state_as_stalled &&
      (let st := optLower item.clientState
       decide (st = "stalleddl" ∨ st = "stalledup" ∨ st = "error")) then some "client_state"
  else
  let zero_act_min := effQor0 cfg service_name item "client_zero_activity_minutes" 0
  if decide (zero_act_min ≠ 0) && is_torrent item &&
      (match item.clientPeers, item.clientSeeds with
       | some peers, some seeds =>
         decide (peers = 0) && decide (seeds = 0) &&
         decide (qSub now ((qTruthy entry.last_progress_ts).getD first_seen) ≥ qMul zero_act_min 60)
       | _, _ => false) then some "client_no_peers"
  else
  let large_gb := ((cfg.rule_engine "large_size_gb").getD (.num 0)).toQ
  let large_zero_min := ((cfg.rule_engine "large_zero_seeders_remove_minutes").getD (.num 0)).toQ
  let large_pct_ceiling := ((cfg.rule_engine "large_progress_ceiling_percent").getD (.num 100)).toQ
  if decide (large_gb ≠ 0) && decide (large_zero_min ≠ 0) && is_torrent item &&
      (match get_total_size item with
       | some total =>
         decide (total ≠ 0) && decide (total ≥ ratTrunc (qMul large_gb 1073741824)) &&
         decide ((get_seeders item).getD 0 = 0) &&
         (match get_progress_percent item with
          | none => true
          | some p => decide (p ≤ large_pct_ceiling)) &&
         decide (qSub now first_seen ≥ qMul large_zero_min 60)
       | none => false) then some "large_zero_seeders"
  else
  if is_stalled_extended item torrent_seeder_stall_threshold torrent_seeder_stall_progress_ceiling then
    let seeds := get_seeders item
    let pct := get_progress_percent item
    let idx_cfg := (get_indexer_name item).bind cfg.indexer_policies
    let seed_thresh :=
      match idx_cfg.bind (·.seeder_stall_threshold) with
      | some t => some t
      | none => torrent_seeder_stall_threshold
    if (match seed_thresh, seeds with
        | some t, some s => decide (0 ≤ t) && is_torrent item && decide (s ≤ t)
        | _, _ => false) &&
       (match pct with
        | none => true
        | some p => decide (p ≤ torrent_seeder_stall_progress_ceiling)) then some "low_seeders"
    else some "stalled"
  else none

/-- Modelled from the spec: the rule evaluator as §4.C together with §4.G
prescribes it, for the refinement comparison of claim C5.  It is
identical to `evaluate_rules` except that the large-size zero-seeders
settings (`large_size_gb`, `large_zero_seeders_remove_minutes`,
`large_progress_ceiling_percent`) are resolved through the three-tier
effective-settings lookup instead of being read from the global
`rule_engine` block only. -/
def evaluate_rules_spec_resolved (cfg : Config) (service_name : String) (item : Item) (entry : StrikeEntry)
    (progressed : Bool)
    (default_grace_minutes default_max_queue_age_hours default_no_progress_max_age_minutes
      default_min_speed_bps default_min_speed_duration_min : ℚ)
    (torrent_seeder_stall_threshold : Option Int)
    (torrent_seeder_stall_progress_ceiling : ℚ) (now : ℚ) : Option String :=
  let first_seen := firstSeenOf entry now
  let grace_min := get_effective cfg service_name item "grace_period_minutes" (.num default_grace_minutes)
  if grace_min.truthy && decide (qSub now first_seen < qMul grace_min.toQ 60) then none
  else
  let max_age_h := get_effective cfg service_name item "max_queue_age_hours" (.num default_max_queue_age_hours)
  if max_age_h.truthy && decide (qSub now first_seen ≥ qMul max_age_h.toQ 3600) then some "max_age"
  else
  let max_age_min := get_effective cfg service_name item "no_progress_max_age_minutes" (.num default_no_progress_max_age_minutes)
  if !progressed && max_age_min.truthy &&
      (match qTruthy entry.last_progress_ts with
       | some lp => decide (qSub now lp ≥ qMul max_age_min.toQ 60)
       | none => false) then some "no_progress_timeout"
  else
  let min_speed := (get_effective cfg service_name item "min_speed_bytes_per_sec" (.num default_min_speed_bps)).toQ
  let min_speed_dur := (get_effective cfg service_name item "min_speed_duration_minutes" (.num default_min_speed_duration_min)).toQ
  if decide (min_speed ≠ 0) && decide (min_speed_dur ≠ 0) && is_torrent item &&
      (match item.clientDlSpeed with
       | some spd =>
         decide (spd < min_speed) &&
         decide (qSub now ((qTruthy entry.last_progress_ts).getD first_seen) ≥ qMul min_speed_dur 60)
       | none => false) then some "min_speed"
  else
  let client_state_as_stalled := (get_effective cfg service_name item "client_state_as_stalled" (.bool false)).truthy
  if client_state_as_stalled &&
      (let st := optLower item.clientState
       decide (st = "stalleddl" ∨ st = "stalledup" ∨ st = "error")) then some "client_state"
  else
  let zero_act_min := effQor0 cfg service_name item "client_zero_activity_minutes" 0
  if decide (zero_act_min ≠ 0) && is_torrent item &&
      (match item.clientPeers, item.clientSeeds with
       | some peers, some seeds =>
         decide (peers = 0) && decide (seeds = 0) &&
         decide (qSub now ((qTruthy entry.last_progress_ts).getD first_seen) ≥ qMul zero_act_min 60)
       | _, _ => false) then some "client_no_peers"
  else
  let large_gb := (get_effective cfg service_name item "large_size_gb" (.num 0)).toQ
  let large_zero_min := (get_effective cfg service_name item "large_zero_seeders_remove_minutes" (.num 0)).toQ
  let large_pct_ceiling := (get_effective cfg service_name item "large_progress_ceiling_percent" (.num 100)).toQ
  if decide (large_gb ≠ 0) && decide (large_zero_min ≠ 0) && is_torrent item &&
      (match get_total_size item with
       | some total =>
         decide (total ≠ 0) && decide (total ≥ ratTrunc (qMul large_gb 1073741824)) &&
         decide ((get_seeders item).getD 0 = 0) &&
         (match get_progress_percent item with
          | none => true
          | some p => decide (p ≤ large_pct_ceiling)) &&
         decide (qSub now first_seen ≥ qMul large_zero_min 60)
       | none => false) then some "large_zero_seeders"
  else
  if is_stalled_extended item torrent_seeder_stall_threshold torrent_seeder_stall_progress_ceiling then
    let seeds := get_seeders item
    let pct := get_progress_percent item
    let idx_cfg := (get_indexer_name item).bind cfg.indexer_policies
    let seed_thresh :=
      match idx_cfg.bind (·.seeder_stall_threshold) with
      | some t => some t
      | none => torrent_seeder_stall_threshold
    if (match seed_thresh, seeds with
        | some t, some s => decide (0 ≤ t) && is_torrent item && decide (s ≤ t)
        | _, _ => false) &&
       (match pct with
        | none => true
        | some p => decide (p ≤ torrent_seeder_stall_progress_ceiling)) then some "low_seeders"
    else some "stalled"
  else none

/-- The `RESET_STRIKES_ON_PROGRESS` knob: `str(x).lower() == 'all'`
selects `all`; every other value goes through `int(x)` with
`max(1, ...)`, where an unparsable value takes the `except` branch
(`dec = 1`, the same behaviour as `num 1`). -/
inductive ResetPolicy where
  | all
  | num (n : Int)
deriving DecidableEq

/-- The module-level knobs of `cleaner.py` consulted by
`process_queue_item`: the loaded configuration, the strike reset policy,
the per-service `auto_search` flags, and the torrent seeder-stall
globals. -/
structure Ctx where
  config : Config := {}
  reset_strikes_on_progress : ResetPolicy := .all
  auto_search : String → Bool := fun _ => false
  seeder_stall_threshold : Int := -1
  seeder_stall_progress_ceiling : ℚ := 25

/-- The mutable module state touched by `process_queue_item`:
the strike ledger (item entries and `:_indexer:` entries, whose key
spaces are disjoint and are therefore modelled as two lookups), the
`removal_reasons` and `reannounce_requests` side channels, and the
metrics accumulator. -/
structure EngineState where
  strikes : String → Option StoredEntry := fun _ => none
  indexers : String → Option IndexerEntry := fun _ => none
  removal_reasons : String → Option String := fun _ => none
  reannounce_requests : String → Option Bool := fun _ => none
  metrics : String → Int := fun _ => 0

/-- Point update of a string-keyed lookup. -/
def updMap {α : Type} (m : String → Option α) (k : String) (v : Option α) : String → Option α :=
  fun x => if x = k then v else m x

/-- `metrics[k] = metrics.get(k, 0) + 1`. -/
def bumpMetric (m : String → Int) (k : String) : String → Int :=
  fun x => if x = k then m x + 1 else m x

/-- `cleaner.py` lines 284-293: `fully_downloaded` is `sizeleft == 0`
(preferring `sizeleft` over `sizeLeft` by an `is not None` check) or a
progress percent of at least 99.9. -/
def fully_downloaded (item : Item) : Bool :=
  let szLeft := match item.sizeleft with
    | some v => some v
    | none => item.sizeLeft
  decide (szLeft = some (0 : Int)) ||
    (match get_progress_percent item with
     | some p => decide (p ≥ Rat.divInt 999 10)
     | none => false)

/-- `' '.join(texts).lower()` over the per-message f-strings plus a
truthy `errorMessage` (`cleaner.py` lines 337-341). -/
def guardText (item : Item) : String :=
  let texts :=
    (item.statusMessages.map (fun m => m.title ++ " " ++ m.messages ++ " " ++ m.message)) ++
    (match truthyStr item.errorMessage with
     | some e => [e]
     | none => [])
  strLower (String.intercalate " " texts)

/-- As `guardText` with a truthy `clientTrackersMsg` appended
(`cleaner.py` lines 377-385). -/
def trackerText (item : Item) : String :=
  let texts :=
    (item.statusMessages.map (fun m => m.title ++ " " ++ m.messages ++ " " ++ m.message)) ++
    (match truthyStr item.errorMessage with
     | some e => [e]
     | none => []) ++
    (match truthyStr item.clientTrackersMsg with
     | some c => [c]
     | none => [])
  strLower (String.intercalate " " texts)

/-- The import-failure heuristics of `cleaner.py` lines 344-345. -/
def import_related (item : Item) : Bool :=
  let t := guardText item
  (pyIn "import failed" t || pyIn "failed to import" t || pyIn "manual import" t ||
   pyIn "manually import" t || pyIn "manual intervention" t || pyIn "waiting to import" t ||
   pyIn "waiting for import" t) ||
  (pyIn "import" t &&
   (pyIn "fail" t || pyIn "manual" t || pyIn "intervention" t || pyIn "waiting" t))

/-- `cleaner.py` line 346: `post_download_error`. -/
def post_download_error (item : Item) : Bool :=
  let tds := optLower (pyOrStr item.trackedDownloadStatus item.trackedDownloadState)
  let status := optLower item.status
  decide (tds = "warning" ∨ tds = "error") ||
  decide (status = "warning" ∨ status = "error") ||
  import_related item

/-- `cleaner.py` lines 386-387: one of the tracker-error phrases occurs
in the collated status/error/client-tracker text. -/
def tracker_phrase_hit (item : Item) : Bool :=
  let t := trackerText item
  pyIn "unregistered" t || pyIn "not registered" t ||
  pyIn "torrent not found" t || pyIn "not found on tracker" t

/-- `cleaner.py` lines 442-446, the byte-delta / status progress
detection before the client zero-activity override:
`progressed = downloaded > (last_dl or 0)` when both are known (where
`(l or 0) = l` for an integer `l`), then
`progressed = True if downloaded is None else (progressed or True)`
when the status is `downloading`. -/
def progressedPre (downloaded last_dl : Option Int) (status : String) : Bool :=
  let p1 := match downloaded, last_dl with
    | some d, some l => decide (d > l)
    | _, _ => false
  if status = "downloading" then
    match downloaded with
    | none => true
    | some _ => p1 || true
  else p1

/-- `cleaner.py` lines 535-553: `_should_try_reannounce_local` (its
`time.time()` sample is the same tick as the caller's `now`). -/
def should_try_reannounce_local (cfg : Config) (entry : StrikeEntry) (item : Item) (now : ℚ) : Bool :=
  let rea := cfg.reannounce
  if !(rea.enabled.getD false) then false
  else
    let attempts := entry.reannounce_attempts
    let cooldown_min := rea.cooldown_minutes.getD 60
    let max_attempts := rea.max_attempts.getD 1
    let only_zero := rea.only_when_seeds_zero.getD true
    if attempts ≥ max_attempts then false
    else if (match qTruthy entry.last_reannounce_ts with
             | some l => decide (qSub now l < qMul cooldown_min 60)
             | none => false) then false
    else if only_zero && decide ((get_seeders item).getD 0 > 0) then false
    else true

/-- The reannounce scheduling block shared by `cleaner.py` lines 429-440
and 555-566: mark `reannounce_requests[key]`, store the entry with
`last_reason = reannounce_scheduled`, and bump the
`reannounce_scheduled` metric unless the flag was already set. -/
def schedule_reannounce (st : EngineState) (key : String) (entry : StrikeEntry) : EngineState :=
  let already := (st.reannounce_requests key).getD false
  { st with
    reannounce_requests := updMap st.reannounce_requests key (some true)
    strikes := updMap st.strikes key (some (.inr { entry with last_reason := some "reannounce_scheduled" }))
    metrics := if already then st.metrics else bumpMetric st.metrics "reannounce_scheduled" }

/-- The `"<manager>:_indexer:<name>"` ledger key. -/
def mkIndexerKey (service_name idx : String) : String :=
  s!"{service_name}:_indexer:{idx}"

/-- `cleaner.py` lines 296-306: the per-indexer failure policy guard:
the item has a (truthy) indexer, the policy's `failure_remove_after` is
nonzero, and the recorded failures reach it. -/
def indexer_policy_fires (cfg : Config) (service_name : String) (item : Item)
    (indexers : String → Option IndexerEntry) : Bool :=
  let idx := get_indexer_name item
  let idx_fail_after := ((idx.bind cfg.indexer_policies).bind (·.failure_remove_after)).getD 0
  ((match idx with
    | some _ => true
    | none => false) && decide (idx_fail_after ≠ 0)) &&
  decide ((match idx with
           | some idx_name =>
             (match indexers (mkIndexerKey service_name idx_name) with
              | some ie => ie.failures.getD 0
              | none => 0)
           | none => 0) ≥ idx_fail_after)

/-- `cleaner.py` lines 360-364: the max-queue-age hard cap guard. -/
def max_age_fires (cfg : Config) (service_name : String) (item : Item)
    (entry : StrikeEntry) (now : ℚ) : Bool :=
  let max_age_h := effQor0 cfg service_name item "max_queue_age_hours" 0
  decide (max_age_h ≠ 0) && decide (qSub now (firstSeenOf entry now) ≥ qMul max_age_h 3600)

/-- `cleaner.py` line 373: the effective `tracker_error_strikes`
threshold (`int(... or 0)`, default 2). -/
def tracker_error_needed (cfg : Config) (service_name : String) (item : Item) : Int :=
  effZor0 cfg service_name item "tracker_error_strikes" 2

/-- `cleaner.py` lines 471-484: the new strike count on a progress
observation, per the `RESET_STRIKES_ON_PROGRESS` policy. -/
def reset_count (before : Int) : ResetPolicy → Int
  | .all => 0
  | .num n => max 0 (before - max 1 n)

/-- `cleaner.py` lines 413-612: the tail of `process_queue_item` from
the reannounce-scheduling section onward, taking the (possibly
tracker-updated) entry and state.  Nested non-returning `if`s of the
source are compiled to conjunction guards. -/
def pqiRest (ctx : Ctx) (service_name : String) (item : Item) (stall_limit : Int) (now : ℚ)
    (key : String) (downloaded : Option Int) (status : String)
    (entry : StrikeEntry) (st : EngineState) : (Bool × Bool) × EngineState :=
  let cfg := ctx.config
  let rea := cfg.reannounce
  let rea_fire :=
    (rea.enabled.getD false) && is_torrent item &&
    (let seeds := (get_seeders item).getD 0
     let only_zero := rea.only_when_seeds_zero.getD true
     let should_consider := if only_zero then decide (seeds = 0) else true
     should_consider &&
     (decide (entry.reannounce_attempts < rea.max_attempts.getD 1) &&
      (match qTruthy entry.last_reannounce_ts with
       | some l => decide (qSub now l ≥ qMul (rea.cooldown_minutes.getD 60) 60)
       | none => true)))
  if rea_fire then ((false, false), schedule_reannounce st key entry)
  else
  let progressed1 := progressedPre downloaded entry.last_dl status
  let zero_act_min := effQor0 cfg service_name item "client_zero_activity_minutes" 0
  let progressed :=
    if progressed1 && decide (zero_act_min ≠ 0) && is_torrent item then
      let peers := item.clientPeers.getD (-1)
      let seeds := item.clientSeeds.getD (-1)
      match qTruthy entry.last_progress_ts with
      | some lp =>
        if decide (peers = 0) && decide (seeds = 0) && decide (qSub now lp ≥ qMul zero_act_min 60) then false
        else progressed1
      | none => progressed1
    else progressed1
  let effective_limit := (get_effective cfg service_name item "stall_limit" (.num (stall_limit : ℚ))).toZ
  if progressed then
    let before_cnt := entry.count
    let newCount := reset_count before_cnt ctx.reset_strikes_on_progress
    let decreased := match ctx.reset_strikes_on_progress with
      | .all => decide (before_cnt > 0)
      | .num _ => decide (newCount < before_cnt)
    let entry2 := { entry with
      count := newCount
      last_dl := match downloaded with
        | some d => some d
        | none => entry.last_dl
      last_progress_ts := some now
      last_seen_seeders := get_seeders item
      last_reason := some "progress" }
    ((false, false),
     { st with
       metrics := if decreased then
           bumpMetric (bumpMetric st.metrics "strike_decreased") (s!"svc:{service_name}:strike_decreased")
         else st.metrics
       strikes := updMap st.strikes key (some (.inr entry2)) })
  else
  if is_queued item then
    let entry2 := { entry with last_reason := some "queued", last_seen_seeders := get_seeders item }
    ((false, false),
     { st with
       strikes := updMap st.strikes key (some (.inr entry2))
       metrics := bumpMetric (bumpMetric st.metrics "queued") (s!"svc:{service_name}:queued") })
  else
  match evaluate_rules cfg service_name item entry progressed 0 0 0 0 0
      (some ctx.seeder_stall_threshold) ctx.seeder_stall_progress_ceiling now with
  | some reason =>
    if should_try_reannounce_local cfg entry item now then
      ((false, false), schedule_reannounce st key entry)
    else
      let entry2 := { entry with
        last_dl := match downloaded with
          | some d => some d
          | none => entry.last_dl
        last_seen_seeders := get_seeders item
        last_reason := some reason }
      if reason = "no_progress_timeout" then
        ((true, ctx.auto_search service_name),
         { st with
           removal_reasons := updMap st.removal_reasons key (some reason)
           strikes := updMap st.strikes key none })
      else
        let before_cnt2 := entry2.count
        let entry3 := { entry2 with count := before_cnt2 + 1 }
        let st2 :=
          { st with
            metrics := if decide (entry3.count > before_cnt2) then
                bumpMetric (bumpMetric st.metrics "strike_increased") (s!"svc:{service_name}:strike_increased")
              else st.metrics
            strikes := updMap st.strikes key (some (.inr entry3)) }
        if entry3.count ≥ effective_limit then
          ((true, ctx.auto_search service_name),
           { st2 with
             removal_reasons := updMap st2.removal_reasons key (some reason)
             strikes := updMap st2.strikes key none })
        else ((false, false), st2)
  | none =>
    if downloaded.isSome then
      let entry2 := { entry with last_dl := downloaded, last_seen_seeders := get_seeders item }
      ((false, false), { st with strikes := updMap st.strikes key (some (.inr entry2)) })
    else ((false, false), st)

/-- `cleaner.py` lines 268-612: `process_queue_item`.  Logging is
elided; everything else (metrics, ledger writes, the `removal_reasons`
and `reannounce_requests` side channels, and the returned
`(should_remove, trigger_search)` pair) is modelled.  `now` is the
`time.time()` sample. -/
def process_queue_item (ctx : Ctx) (service_name : String) (item : Item) (stall_limit : Int)
    (now : ℚ) (st : EngineState) : (Bool × Bool) × EngineState :=
  match item.id with
  | none => ((false, false), st)
  | some item_id =>
    let cfg := ctx.config
    let st1 := { st with
      metrics := bumpMetric (bumpMetric st.metrics "processed") (s!"svc:{service_name}:processed") }
    let key := make_strike_key service_name item_id
    let entry := normalize_strike_entry (st1.strikes key) now
    let fully := fully_downloaded item
    let idx := get_indexer_name item
    if indexer_policy_fires cfg service_name item st1.indexers then
      if fully then
        let entry2 := { entry with last_reason := some "completed_preserved_indexer_failure" }
        ((false, false), { st1 with strikes := updMap st1.strikes key (some (.inr entry2)) })
      else
        ((true, ctx.auto_search service_name),
         { st1 with
           removal_reasons := updMap st1.removal_reasons key (some "indexer_failure_policy")
           strikes := updMap st1.strikes key none
           metrics := bumpMetric (bumpMetric st1.metrics "removed_indexer_failure")
             (s!"svc:{service_name}:removed_indexer_failure") })
    else
    if is_whitelisted cfg.whitelist item then
      let entry2 := { entry with last_reason := some "whitelisted" }
      ((false, false), { st1 with strikes := updMap st1.strikes key (some (.inr entry2)) })
    else
    let downloaded := get_downloaded_bytes item
    let status := optLower item.status
    if fully && post_download_error item then
      let entry2 := { entry with
        last_reason := some "downloaded_but_errored"
        last_dl := match downloaded with
          | some d => some d
          | none => entry.last_dl
        last_seen_seeders := get_seeders item }
      ((false, false), { st1 with strikes := updMap st1.strikes key (some (.inr entry2)) })
    else
    if max_age_fires cfg service_name item entry now then
      ((true, ctx.auto_search service_name),
       { st1 with
         removal_reasons := updMap st1.removal_reasons key (some "max_age")
         strikes := updMap st1.strikes key none })
    else
    let err_needed := tracker_error_needed cfg service_name item
    if decide (err_needed ≠ 0) && tracker_phrase_hit item then
      let entry2 := { entry with error_strikes := entry.error_strikes + 1 }
      if entry2.error_strikes ≥ err_needed then
        if fully then
          let entry3 := { entry2 with last_reason := some "completed_preserved_tracker_error" }
          ((false, false), { st1 with strikes := updMap st1.strikes key (some (.inr entry3)) })
        else
          let st2 := { st1 with removal_reasons := updMap st1.removal_reasons key (some "tracker_error") }
          let st3 := match idx with
            | some idx_name =>
              let ikey := mkIndexerKey service_name idx_name
              let fcount := match st2.indexers ikey with
                | some ie => ie.failures.getD 0
                | none => 0
              let ie2 : IndexerEntry := { failures := some (fcount + 1), last_ts := some now }
              { st2 with indexers := updMap st2.indexers ikey (some ie2) }
            | none => st2
          ((true, ctx.auto_search service_name),
           { st3 with strikes := updMap st3.strikes key none })
      else
        pqiRest ctx service_name item stall_limit now key downloaded status entry2
          { st1 with strikes := updMap st1.strikes key (some (.inr entry2)) }
    else
      pqiRest ctx service_name item stall_limit now key downloaded status entry st1

/-- The count of a stored ledger value (legacy integer shape or dict). -/
def storedCount : StoredEntry → Int
  | .inl n => n
  | .inr e => e.count

/-- The `last_reason` of a stored ledger value. -/
def storedReason : StoredEntry → Option String
  | .inl _ => none
  | .inr e => e.last_reason




/-! ## Helper lemmas -/

theorem updMap_self {α : Type} (m : String → Option α) (k : String) (v : Option α) :
    updMap m k v k = v := by simp [updMap]

theorem updMap_ne {α : Type} (m : String → Option α) (k x : String) (v : Option α)
    (h : x ≠ k) : updMap m k v x = m x := by simp [updMap, h]

/-! ## Claims -/

/-- Claim C9 (confirmed): for a torrent item with no textual/state stall
signal, a known seeder count at most the configured non-negative seeder
stall threshold, and an unknown progress percent, the extended stall
check flags the item as stalled exactly when the threshold is zero. -/
theorem C9_seeder_threshold_unknown_progress
    (item : Item) (t : Int) (ceiling : ℚ) (s : Int)
    (hstall : is_stalled item = false)
    (htor : is_torrent item = true)
    (ht : 0 ≤ t)
    (hseed : get_seeders item = some s) (hle : s ≤ t)
    (hpct : get_progress_percent item = none) :
    is_stalled_extended item (some t) ceiling = decide (t = 0) := by
  simp [is_stalled_extended, hstall, htor, ht, hseed, hle, hpct]

def itemC9 : Item := {
  protocol := some "torrent"
  release := some { seeders := some 0 }
}

/-- Witness for C9 at a concrete torrent item with zero seeders, no
size information (unknown progress) and threshold 0. -/
theorem C9_witness :
    is_stalled_extended itemC9 (some 0) 25 = decide ((0 : Int) = 0) :=
  C9_seeder_threshold_unknown_progress itemC9 0 25 0 (by decide) (by decide) (by decide)
    (by decide) (by decide) (by decide)

/-- Modelled from the spec: claim C1's description of the progress
detection before the zero-activity override — progressed iff downloaded
and `last_dl` are both known with `downloaded > last_dl`, or the status
is `downloading` and `last_dl` is unknown. -/
def progressed_claimed (downloaded last_dl : Option Int) (status : String) : Bool :=
  (match downloaded, last_dl with
   | some d, some l => decide (d > l)
   | _, _ => false) ||
  (decide (status = "downloading") && last_dl.isNone)

/-- Counterexample for C1: with `downloaded = 5`, `last_dl = 10` (both
known, no byte progress) and status `downloading`, the code sets
`progressed = True` (`progressed or True` at cleaner.py line 446), while
the claim requires `progressed = false`. -/
theorem C1_counterexample :
    progressedPre (some 5) (some 10) "downloading" = true ∧
    progressed_claimed (some 5) (some 10) "downloading" = false := by decide

/-- Claim C1 (amended): before the zero-activity override, `progressed`
is true exactly when the status is `downloading` (regardless of byte
counts), or when downloaded and `last_dl` are both known and
`downloaded > last_dl`. -/
theorem C1_progress_detection_amended
    (downloaded last_dl : Option Int) (status : String) :
    progressedPre downloaded last_dl status =
      (decide (status = "downloading") ||
       match downloaded, last_dl with
       | some d, some l => decide (d > l)
       | _, _ => false) := by
  unfold progressedPre
  by_cases hs : status = "downloading" <;> cases downloaded <;> cases last_dl <;> simp [hs]

/-- Claim C6 (code bug): `is_torrent` is not total — on the integer
protocol `1` the expression `(item.get('protocol') or '').lower()`
raises `AttributeError` before the `int(protocol) == 1` fallback can
run, so the function raises instead of returning `True`. -/
theorem C6_is_torrent_raises_on_integer_protocol :
    is_torrent_dyn (.int 1) = .error "AttributeError" := rfl

/-- Modelled from the spec: claim C7's description of `is_queued` — any
of `status`, `trackedDownloadStatus`, `clientState` contains `queued`,
`pending` or `waiting`, or `clientState` is `download_wait` /
`check_wait`. -/
def is_queued_claimed (item : Item) : Bool :=
  let status := optLower item.status
  let tds := optLower item.trackedDownloadStatus
  let cstate := optLower item.clientState
  (pyIn "queued" status || pyIn "pending" status || pyIn "waiting" status) ||
  (pyIn "queued" tds || pyIn "pending" tds || pyIn "waiting" tds) ||
  (pyIn "queued" cstate || pyIn "pending" cstate || pyIn "waiting" cstate) ||
  decide (cstate = "download_wait" ∨ cstate = "check_wait")

def itemC7 : Item := { clientState := some "waiting" }

/-- Counterexample for C7: an item whose only signal is
`clientState = "waiting"` — the claim says `is_queued` is true, but the
code only tests `clientState` for the substring `queue` and the two
exact wait states, so it returns false. -/
theorem C7_counterexample :
    is_queued itemC7 = false ∧ is_queued_claimed itemC7 = true := by decide

/-- Claim C7 (amended): `is_queued` is true iff `status` or
`trackedDownloadStatus` (falling back to `trackedDownloadState`)
contains `queued`/`pending`/`waiting`, or `clientState` contains
`queue` (hence also `queued`), or `clientState` is exactly
`download_wait` or `check_wait`. -/
theorem C7_is_queued_amended (item : Item) :
    is_queued item =
      ((pyIn "queued" (optLower item.status) || pyIn "pending" (optLower item.status) ||
        pyIn "waiting" (optLower item.status)) ||
       (pyIn "queued" (optLower (pyOrStr item.trackedDownloadStatus item.trackedDownloadState)) ||
        pyIn "pending" (optLower (pyOrStr item.trackedDownloadStatus item.trackedDownloadState)) ||
        pyIn "waiting" (optLower (pyOrStr item.trackedDownloadStatus item.trackedDownloadState))) ||
       (pyIn "queue" (optLower item.clientState) || pyIn "queued" (optLower item.clientState)) ||
       decide (optLower item.clientState = "download_wait" ∨ optLower item.clientState = "check_wait")) := by
  unfold is_queued
  simp_all [Bool.or_assoc]

/-- Claim C10 (confirmed): when the item has no `id`, `process_queue_item`
returns `(false, false)` and leaves the entire engine state — strike
ledger, `removal_reasons`, `reannounce_requests` and all metrics
counters — unchanged. -/
theorem C10_missing_id_is_noop
    (ctx : Ctx) (service_name : String) (item : Item) (stall_limit : Int)
    (now : ℚ) (st : EngineState)
    (hid : item.id = none) :
    process_queue_item ctx service_name item stall_limit now st = ((false, false), st) := by
  simp only [process_queue_item, hid]

def itemC10 : Item := { title := some "no id here" }

/-- Witness for C10 at a concrete item lacking an `id`. -/
theorem C10_witness :
    process_queue_item {} "Sonarr" itemC10 3 1000000 {} = ((false, false), ({} : EngineState)) :=
  C10_missing_id_is_noop {} "Sonarr" itemC10 3 1000000 {} rfl

def itemC4 : Item := { id := some 7, indexer := some "X" }

def cfgC4 : Config := {
  indexer_policies := fun n => if n = "X" then some { failure_remove_after := some 0 } else none
}

def stC4 : EngineState := {
  indexers := fun k => if k = "Sonarr:_indexer:X" then some { failures := some 5 } else none
}

/-- Counterexample for C4: the indexer entry's failures (5) are at least
the configured `failure_remove_after` (0) and the item is not fully
downloaded, yet `process_queue_item` neither removes the item nor writes
`removal_reasons` — the guard `if idx and idx_fail_after:` at
cleaner.py line 303 disables the policy entirely when the configured
value is 0. -/
theorem C4_counterexample :
    ((match stC4.indexers (mkIndexerKey "Sonarr" "X") with
      | some ie => ie.failures.getD 0
      | none => 0) ≥ ((cfgC4.indexer_policies "X").bind (·.failure_remove_after)).getD 0) ∧
    fully_downloaded itemC4 = false ∧
    (process_queue_item { config := cfgC4 } "Sonarr" itemC4 3 1000000 stC4).1 = (false, false) ∧
    (process_queue_item { config := cfgC4 } "Sonarr" itemC4 3 1000000 stC4).2.removal_reasons "Sonarr:7" = none := by
  decide

/-- Claim C4 (amended): when the item's indexer has a nonzero configured
`failure_remove_after` and the recorded failures reach it — that is,
when the indexer-policy guard fires — a fully downloaded item is
preserved with `last_reason = completed_preserved_indexer_failure` and
`(false, false)` is returned, while any other item is removed with
`removal_reasons[key] = indexer_failure_policy`, its ledger entry
deleted, and `(true, auto_search)` returned. -/
theorem C4_indexer_failure_policy_amended
    (ctx : Ctx) (service_name : String) (item : Item) (stall_limit : Int)
    (now : ℚ) (st : EngineState) (i : Int)
    (hid : item.id = some i)
    (hfires : indexer_policy_fires ctx.config service_name item st.indexers = true) :
    (fully_downloaded item = true →
      (process_queue_item ctx service_name item stall_limit now st).1 = (false, false) ∧
      (process_queue_item ctx service_name item stall_limit now st).2.strikes
          (make_strike_key service_name i) =
        some (.inr { normalize_strike_entry (st.strikes (make_strike_key service_name i)) now with
                      last_reason := some "completed_preserved_indexer_failure" }) ∧
      (process_queue_item ctx service_name item stall_limit now st).2.removal_reasons =
        st.removal_reasons) ∧
    (fully_downloaded item = false →
      (process_queue_item ctx service_name item stall_limit now st).1 =
        (true, ctx.auto_search service_name) ∧
      (process_queue_item ctx service_name item stall_limit now st).2.removal_reasons
          (make_strike_key service_name i) = some "indexer_failure_policy" ∧
      (process_queue_item ctx service_name item stall_limit now st).2.strikes
          (make_strike_key service_name i) = none) := by
  constructor <;> intro hf <;>
    simp [process_queue_item, hid, hfires, hf, updMap_self]

def itemC4b : Item := { id := some 8, indexer := some "Y", sizeleft := some 0 }

def cfgC4b : Config := {
  indexer_policies := fun n => if n = "Y" then some { failure_remove_after := some 1 } else none
}

def stC4b : EngineState := {
  indexers := fun k => if k = "Sonarr:_indexer:Y" then some { failures := some 2 } else none
}

/-- Witness for the amended C4 at a concrete fully-downloaded item whose
indexer has 2 recorded failures against a threshold of 1. -/
theorem C4_witness :
    (fully_downloaded itemC4b = true →
      (process_queue_item { config := cfgC4b } "Sonarr" itemC4b 3 1000000 stC4b).1 = (false, false) ∧
      (process_queue_item { config := cfgC4b } "Sonarr" itemC4b 3 1000000 stC4b).2.strikes
          (make_strike_key "Sonarr" 8) =
        some (.inr { normalize_strike_entry (stC4b.strikes (make_strike_key "Sonarr" 8)) 1000000 with
                      last_reason := some "completed_preserved_indexer_failure" }) ∧
      (process_queue_item { config := cfgC4b } "Sonarr" itemC4b 3 1000000 stC4b).2.removal_reasons =
        stC4b.removal_reasons) ∧
    (fully_downloaded itemC4b = false →
      (process_queue_item { config := cfgC4b } "Sonarr" itemC4b 3 1000000 stC4b).1 =
        (true, ({ config := cfgC4b } : Ctx).auto_search "Sonarr") ∧
      (process_queue_item { config := cfgC4b } "Sonarr" itemC4b 3 1000000 stC4b).2.removal_reasons
          (make_strike_key "Sonarr" 8) = some "indexer_failure_policy" ∧
      (process_queue_item { config := cfgC4b } "Sonarr" itemC4b 3 1000000 stC4b).2.strikes
          (make_strike_key "Sonarr" 8) = none) :=
  C4_indexer_failure_policy_amended { config := cfgC4b } "Sonarr" itemC4b 3 1000000 stC4b 8
    (by decide) (by decide)

def itemC5 : Item := { title := some "Ubuntu ISO", protocol := some "torrent", size := some 2147483648 }

def catC5 : Category := {
  title_contains := ["ubuntu"]
  block := fun k => if k = "large_size_gb" then some (.num 0) else none
}

def cfgC5 : Config := {
  categories := [catC5]
  rule_engine := fun k =>
    if k = "large_size_gb" then some (.num 1)
    else if k = "large_zero_seeders_remove_minutes" then some (.num 1)
    else none
}

def entryC5 : StrikeEntry := { first_seen_ts := some 100 }

/-- Counterexample for C5: a matching category override sets
`large_size_gb = 0` (which, resolved per the spec's three-tier lookup,
disables the large-size zero-seeders rule), but `evaluate_rules` reads
the setting from the global `rule_engine` block only and still returns
`large_zero_seeders`; the spec-resolved evaluator returns `none`. -/
theorem C5_counterexample :
    evaluate_rules cfgC5 "Sonarr" itemC5 entryC5 false 0 0 0 0 0 none 25 10000 =
      some "large_zero_seeders" ∧
    evaluate_rules_spec_resolved cfgC5 "Sonarr" itemC5 entryC5 false 0 0 0 0 0 none 25 10000 =
      none := by decide

/-- Claim C5 (amended): every numeric setting that `evaluate_rules`
consults through `get_effective` follows the three-tier category →
per-manager → global lookup, but the large-size zero-seeders settings
(`large_size_gb`, `large_zero_seeders_remove_minutes`,
`large_progress_ceiling_percent`) are read from the global `rule_engine`
block only: two configurations that agree on `rule_engine`, on
`indexer_policies`, and on every effective lookup other than those three
keys make `evaluate_rules` agree, no matter how their category or
per-manager overrides differ at the three large keys. -/
theorem C5_large_settings_bypass_resolver_amended
    (cfg1 cfg2 : Config) (service_name : String) (item : Item) (entry : StrikeEntry)
    (progressed : Bool) (dg dmax dnp dms dmsd : ℚ) (th : Option Int) (ce now : ℚ)
    (hre : cfg1.rule_engine = cfg2.rule_engine)
    (hip : cfg1.indexer_policies = cfg2.indexer_policies)
    (heff : ∀ key default, key ≠ "large_size_gb" →
        key ≠ "large_zero_seeders_remove_minutes" →
        key ≠ "large_progress_ceiling_percent" →
        get_effective cfg1 service_name item key default =
          get_effective cfg2 service_name item key default) :
    evaluate_rules cfg1 service_name item entry progressed dg dmax dnp dms dmsd th ce now =
    evaluate_rules cfg2 service_name item entry progressed dg dmax dnp dms dmsd th ce now := by
  have h1 := heff "grace_period_minutes" (.num dg) (by decide) (by decide) (by decide)
  have h2 := heff "max_queue_age_hours" (.num dmax) (by decide) (by decide) (by decide)
  have h3 := heff "no_progress_max_age_minutes" (.num dnp) (by decide) (by decide) (by decide)
  have h4 := heff "min_speed_bytes_per_sec" (.num dms) (by decide) (by decide) (by decide)
  have h5 := heff "min_speed_duration_minutes" (.num dmsd) (by decide) (by decide) (by decide)
  have h6 := heff "client_state_as_stalled" (.bool false) (by decide) (by decide) (by decide)
  have h7 := heff "client_zero_activity_minutes" (.num 0) (by decide) (by decide) (by decide)
  simp only [evaluate_rules, effQor0, h1, h2, h3, h4, h5, h6, h7, hre, hip]

def cfgC5w1 : Config := {
  services := fun s =>
    if s = "Sonarr" then some (fun k => if k = "large_size_gb" then some (.num 0) else none) else none
  rule_engine := fun k => if k = "grace_period_minutes" then some (.num 1) else none
}

def cfgC5w2 : Config := {
  services := fun s =>
    if s = "Sonarr" then some (fun k => if k = "large_size_gb" then some (.num 7) else none) else none
  rule_engine := fun k => if k = "grace_period_minutes" then some (.num 1) else none
}

/-- Witness for the amended C5: two configurations whose per-manager
blocks differ only at `large_size_gb` produce the same evaluation. -/
theorem C5_witness :
    evaluate_rules cfgC5w1 "Sonarr" {} {} false 0 0 0 0 0 none 25 0 =
    evaluate_rules cfgC5w2 "Sonarr" {} {} false 0 0 0 0 0 none 25 0 :=
  C5_large_settings_bypass_resolver_amended cfgC5w1 cfgC5w2 "Sonarr" {} {} false 0 0 0 0 0 none 25 0
    rfl rfl
    (fun key d h1 _ _ => by
      simp [get_effective, category_override, get_service_setting, cfgC5w1, cfgC5w2, h1])

def itemC3 : Item := {
  id := some 5
  protocol := some "torrent"
  trackedDownloadStatus := some "stalled"
  errorMessage := some "unregistered torrent"
}

def cfgC3 : Config := {
  rule_engine := fun k => if k = "tracker_error_strikes" then some (.num 3) else none
}

/-- Counterexample for C3: with `tracker_error_strikes = 3` the tracker
phrase bumps `error_strikes` to 1, below the threshold — the claim says
the entry is kept and no removal occurs — yet the same invocation
removes the item through the stalled-strike path (`stall_limit = 1`),
deleting the entry with reason `stalled`. -/
theorem C3_counterexample :
    tracker_error_needed cfgC3 "Sonarr" itemC3 = 3 ∧
    tracker_phrase_hit itemC3 = true ∧
    (process_queue_item { config := cfgC3 } "Sonarr" itemC3 1 1000 {}).1.1 = true ∧
    (process_queue_item { config := cfgC3 } "Sonarr" itemC3 1 1000 {}).2.removal_reasons "Sonarr:5" =
      some "stalled" ∧
    (process_queue_item { config := cfgC3 } "Sonarr" itemC3 1 1000 {}).2.strikes "Sonarr:5" = none := by
  decide

/-- Claim C3 (amended): when the effective `tracker_error_strikes`
threshold is positive, the item's text matches a tracker-error phrase,
the item has an indexer, and no earlier guard fired (indexer policy,
whitelist, completed-but-errored, max age), `process_queue_item`
increments `error_strikes` by exactly one; if the incremented value
reaches the threshold then a non-completed item is removed with
`removal_reasons[key] = tracker_error` and the per-indexer failures
counter incremented, returning `(true, auto_search)`, while a fully
downloaded item is kept with
`last_reason = completed_preserved_tracker_error` and `(false, false)`;
below the threshold the entry is stored with the incremented
`error_strikes` and evaluation continues with the updated entry (later
rules in the same invocation may still strike or remove the item). -/
theorem C3_tracker_error_persistence_amended
    (ctx : Ctx) (service_name : String) (item : Item) (stall_limit : Int)
    (now : ℚ) (st : EngineState) (i : Int) (idxn : String)
    (hid : item.id = some i)
    (hpol : indexer_policy_fires ctx.config service_name item st.indexers = false)
    (hwl : is_whitelisted ctx.config.whitelist item = false)
    (hguard : (fully_downloaded item && post_download_error item) = false)
    (hage : max_age_fires ctx.config service_name item
        (normalize_strike_entry (st.strikes (make_strike_key service_name i)) now) now = false)
    (herr : 0 < tracker_error_needed ctx.config service_name item)
    (hphrase : tracker_phrase_hit item = true)
    (hidx : get_indexer_name item = some idxn) :
    ((normalize_strike_entry (st.strikes (make_strike_key service_name i)) now).error_strikes + 1 ≥
        tracker_error_needed ctx.config service_name item →
      (fully_downloaded item = false →
        (process_queue_item ctx service_name item stall_limit now st).1 =
          (true, ctx.auto_search service_name) ∧
        (process_queue_item ctx service_name item stall_limit now st).2.removal_reasons
            (make_strike_key service_name i) = some "tracker_error" ∧
        (process_queue_item ctx service_name item stall_limit now st).2.strikes
            (make_strike_key service_name i) = none ∧
        (process_queue_item ctx service_name item stall_limit now st).2.indexers
            (mkIndexerKey service_name idxn) =
          some { failures := some ((match st.indexers (mkIndexerKey service_name idxn) with
                                    | some ie => ie.failures.getD 0
                                    | none => 0) + 1), last_ts := some now }) ∧
      (fully_downloaded item = true →
        (process_queue_item ctx service_name item stall_limit now st).1 = (false, false) ∧
        (process_queue_item ctx service_name item stall_limit now st).2.strikes
            (make_strike_key service_name i) =
          some (.inr { normalize_strike_entry (st.strikes (make_strike_key service_name i)) now with
                        error_strikes :=
                          (normalize_strike_entry (st.strikes (make_strike_key service_name i)) now).error_strikes + 1
                        last_reason := some "completed_preserved_tracker_error" }) ∧
        (process_queue_item ctx service_name item stall_limit now st).2.removal_reasons =
          st.removal_reasons)) ∧
    ((normalize_strike_entry (st.strikes (make_strike_key service_name i)) now).error_strikes + 1 <
        tracker_error_needed ctx.config service_name item →
      process_queue_item ctx service_name item stall_limit now st =
        pqiRest ctx service_name item stall_limit now (make_strike_key service_name i)
          (get_downloaded_bytes item) (optLower item.status)
          { normalize_strike_entry (st.strikes (make_strike_key service_name i)) now with
            error_strikes :=
              (normalize_strike_entry (st.strikes (make_strike_key service_name i)) now).error_strikes + 1 }
          { st with
            metrics := bumpMetric (bumpMetric st.metrics "processed")
              (s!"svc:{service_name}:processed")
            strikes := updMap st.strikes (make_strike_key service_name i)
              (some (.inr { normalize_strike_entry (st.strikes (make_strike_key service_name i)) now with
                            error_strikes :=
                              (normalize_strike_entry (st.strikes (make_strike_key service_name i)) now).error_strikes + 1 })) }) := by
  have hne : tracker_error_needed ctx.config service_name item ≠ 0 := by omega
  constructor
  · intro hge
    constructor
    · intro hful
      simp [process_queue_item, hid, hpol, hwl, hguard, hage, hne, hphrase, hful, hge, hidx,
        updMap_self]
    · intro hful
      have hpost : post_download_error item = false := by
        simpa [hful] using hguard
      simp [process_queue_item, hid, hpol, hwl, hpost, hage, hne, hphrase, hful, hge, hidx,
        updMap_self]
  · intro hlt
    have hnge : ¬ ((normalize_strike_entry (st.strikes (make_strike_key service_name i)) now).error_strikes + 1 ≥
        tracker_error_needed ctx.config service_name item) := by omega
    simp [process_queue_item, hid, hpol, hwl, hguard, hage, hne, hphrase, hnge]

def itemC3w : Item := {
  id := some 9
  indexer := some "T"
  protocol := some "torrent"
  statusMessages := [{ title := "Unregistered torrent" }]
}

def cfgC3w : Config := {
  rule_engine := fun k => if k = "tracker_error_strikes" then some (.num 2) else none
}

def stC3w : EngineState := {
  strikes := fun k =>
    if k = "Sonarr:9" then some (.inr { error_strikes := 1, first_seen_ts := some 999999 }) else none
}

/-- Witness for the amended C3 at a concrete item whose second tracker
strike reaches the threshold of 2, removing it and bumping the
per-indexer failures. -/
theorem C3_witness :
    ((normalize_strike_entry (stC3w.strikes (make_strike_key "Sonarr" 9)) 1000000).error_strikes + 1 ≥
        tracker_error_needed cfgC3w "Sonarr" itemC3w →
      (fully_downloaded itemC3w = false →
        (process_queue_item { config := cfgC3w } "Sonarr" itemC3w 3 1000000 stC3w).1 =
          (true, ({ config := cfgC3w } : Ctx).auto_search "Sonarr") ∧
        (process_queue_item { config := cfgC3w } "Sonarr" itemC3w 3 1000000 stC3w).2.removal_reasons
            (make_strike_key "Sonarr" 9) = some "tracker_error" ∧
        (process_queue_item { config := cfgC3w } "Sonarr" itemC3w 3 1000000 stC3w).2.strikes
            (make_strike_key "Sonarr" 9) = none ∧
        (process_queue_item { config := cfgC3w } "Sonarr" itemC3w 3 1000000 stC3w).2.indexers
            (mkIndexerKey "Sonarr" "T") =
          some { failures := some ((match stC3w.indexers (mkIndexerKey "Sonarr" "T") with
                                    | some ie => ie.failures.getD 0
                                    | none => 0) + 1), last_ts := some 1000000 }) ∧
      (fully_downloaded itemC3w = true →
        (process_queue_item { config := cfgC3w } "Sonarr" itemC3w 3 1000000 stC3w).1 = (false, false) ∧
        (process_queue_item { config := cfgC3w } "Sonarr" itemC3w 3 1000000 stC3w).2.strikes
            (make_strike_key "Sonarr" 9) =
          some (.inr { normalize_strike_entry (stC3w.strikes (make_strike_key "Sonarr" 9)) 1000000 with
                        error_strikes :=
                          (normalize_strike_entry (stC3w.strikes (make_strike_key "Sonarr" 9)) 1000000).error_strikes + 1
                        last_reason := some "completed_preserved_tracker_error" }) ∧
        (process_queue_item { config := cfgC3w } "Sonarr" itemC3w 3 1000000 stC3w).2.removal_reasons =
          stC3w.removal_reasons)) ∧
    ((normalize_strike_entry (stC3w.strikes (make_strike_key "Sonarr" 9)) 1000000).error_strikes + 1 <
        tracker_error_needed cfgC3w "Sonarr" itemC3w →
      process_queue_item { config := cfgC3w } "Sonarr" itemC3w 3 1000000 stC3w =
        pqiRest { config := cfgC3w } "Sonarr" itemC3w 3 1000000 (make_strike_key "Sonarr" 9)
          (get_downloaded_bytes itemC3w) (optLower itemC3w.status)
          { normalize_strike_entry (stC3w.strikes (make_strike_key "Sonarr" 9)) 1000000 with
            error_strikes :=
              (normalize_strike_entry (stC3w.strikes (make_strike_key "Sonarr" 9)) 1000000).error_strikes + 1 }
          { stC3w with
            metrics := bumpMetric (bumpMetric stC3w.metrics "processed") (s!"svc:Sonarr:processed")
            strikes := updMap stC3w.strikes (make_strike_key "Sonarr" 9)
              (some (.inr { normalize_strike_entry (stC3w.strikes (make_strike_key "Sonarr" 9)) 1000000 with
                            error_strikes :=
                              (normalize_strike_entry (stC3w.strikes (make_strike_key "Sonarr" 9)) 1000000).error_strikes + 1 })) }) :=
  C3_tracker_error_persistence_amended { config := cfgC3w } "Sonarr" itemC3w 3 1000000 stC3w 9 "T"
    (by decide) (by decide) (by decide) (by decide) (by decide) (by decide) (by decide) (by decide)

set_option maxHeartbeats 4000000 in
/-- Frame property of the tail stage: a `true` result deletes the entry
at `key` and writes `removal_reasons[key]`; a `false` result leaves
`removal_reasons[key]` untouched and never deletes a present entry. -/
theorem pqiRest_removal_frame
    (ctx : Ctx) (service_name : String) (item : Item) (stall_limit : Int) (now : ℚ)
    (key : String) (downloaded : Option Int) (status : String)
    (entry : StrikeEntry) (st : EngineState) :
    ((pqiRest ctx service_name item stall_limit now key downloaded status entry st).1.1 = true →
      (pqiRest ctx service_name item stall_limit now key downloaded status entry st).2.strikes key = none ∧
      ((pqiRest ctx service_name item stall_limit now key downloaded status entry st).2.removal_reasons key).isSome) ∧
    ((pqiRest ctx service_name item stall_limit now key downloaded status entry st).1.1 = false →
      (pqiRest ctx service_name item stall_limit now key downloaded status entry st).2.removal_reasons key =
        st.removal_reasons key ∧
      ((st.strikes key).isSome →
        ((pqiRest ctx service_name item stall_limit now key downloaded status entry st).2.strikes key).isSome)) := by
  simp only [pqiRest, schedule_reannounce]
  repeat' split
  all_goals constructor <;> intro h <;> simp_all [updMap_self]

set_option maxHeartbeats 2000000 in
/-- Claim C2 (confirmed): `process_queue_item` returns
`should_remove = true` exactly when it deletes the item's ledger entry
and writes the decision reason into `removal_reasons[key]`; on a
`false` return `removal_reasons[key]` is untouched and a present ledger
entry is never deleted. -/
theorem C2_removal_ledger_coupling
    (ctx : Ctx) (service_name : String) (item : Item) (stall_limit : Int)
    (now : ℚ) (st : EngineState) (i : Int)
    (hid : item.id = some i) :
    ((process_queue_item ctx service_name item stall_limit now st).1.1 = true →
      (process_queue_item ctx service_name item stall_limit now st).2.strikes
          (make_strike_key service_name i) = none ∧
      ((process_queue_item ctx service_name item stall_limit now st).2.removal_reasons
          (make_strike_key service_name i)).isSome) ∧
    ((process_queue_item ctx service_name item stall_limit now st).1.1 = false →
      (process_queue_item ctx service_name item stall_limit now st).2.removal_reasons
          (make_strike_key service_name i) =
        st.removal_reasons (make_strike_key service_name i) ∧
      ((st.strikes (make_strike_key service_name i)).isSome →
        ((process_queue_item ctx service_name item stall_limit now st).2.strikes
            (make_strike_key service_name i)).isSome)) := by
  have hrest := pqiRest_removal_frame ctx service_name item stall_limit now
    (make_strike_key service_name i) (get_downloaded_bytes item) (optLower item.status)
  simp only [process_queue_item, hid]
  repeat' split
  all_goals first
    | exact hrest _ _
    | (refine ⟨fun h => ⟨?_, ?_⟩, fun h => ⟨?_, fun hs => ?_⟩⟩ <;> simp_all [updMap_self])

def itemC2w : Item := { id := some 1 }

/-- Witness for C2 at a concrete item with an id (no rule fires; the
call returns `(false, false)` and the frame conditions hold). -/
theorem C2_witness :
    ((process_queue_item {} "Sonarr" itemC2w 3 1000 {}).1.1 = true →
      (process_queue_item {} "Sonarr" itemC2w 3 1000 {}).2.strikes (make_strike_key "Sonarr" 1) = none ∧
      ((process_queue_item {} "Sonarr" itemC2w 3 1000 {}).2.removal_reasons
          (make_strike_key "Sonarr" 1)).isSome) ∧
    ((process_queue_item {} "Sonarr" itemC2w 3 1000 {}).1.1 = false →
      (process_queue_item {} "Sonarr" itemC2w 3 1000 {}).2.removal_reasons
          (make_strike_key "Sonarr" 1) =
        ({} : EngineState).removal_reasons (make_strike_key "Sonarr" 1) ∧
      ((({} : EngineState).strikes (make_strike_key "Sonarr" 1)).isSome →
        ((process_queue_item {} "Sonarr" itemC2w 3 1000 {}).2.strikes
            (make_strike_key "Sonarr" 1)).isSome)) :=
  C2_removal_ledger_coupling {} "Sonarr" itemC2w 3 1000 {} 1 rfl

theorem reset_count_nonneg (c : Int) (p : ResetPolicy) (_h : 0 ≤ c) :
    0 ≤ reset_count c p := by
  cases p with
  | all => simp [reset_count]
  | num n => simp [reset_count]

theorem reset_count_le (c : Int) (p : ResetPolicy) (h : 0 ≤ c) :
    reset_count c p ≤ c := by
  cases p with
  | all => simpa [reset_count] using h
  | num n =>
    simp only [reset_count]
    exact max_le h (sub_le_self c (le_trans zero_le_one (le_max_left 1 n)))

set_option maxHeartbeats 2000000 in
/-- Every reason the rule evaluator can return is a rule tag, never the
bookkeeping tag `progress`. -/
theorem evaluate_rules_ne_progress
    (cfg : Config) (service_name : String) (item : Item) (entry : StrikeEntry)
    (progressed : Bool) (dg dmax dnp dms dmsd : ℚ) (th : Option Int) (ce now : ℚ) (r : String)
    (h : evaluate_rules cfg service_name item entry progressed dg dmax dnp dms dmsd th ce now =
      some r) : r ≠ "progress" := by
  simp only [evaluate_rules] at h
  repeat' split at h
  all_goals first
    | exact Option.noConfusion h
    | (injection h with h; subst h; decide)

set_option maxHeartbeats 4000000 in
/-- Count discipline of the tail stage, relative to the entry it was
handed: any entry stored at `key` has a non-negative count; a strict
increase is exactly `+1` and never carries the `progress` reason; a
strict decrease carries the `progress` reason and equals the
`reset_count` policy value. -/
theorem pqiRest_count_frame
    (ctx : Ctx) (service_name : String) (item : Item) (stall_limit : Int) (now : ℚ)
    (key : String) (downloaded : Option Int) (status : String)
    (entry : StrikeEntry) (st : EngineState) (c : Int)
    (hcnt : entry.count = c)
    (h0 : 0 ≤ c)
    (hrel : ∀ se, st.strikes key = some se → storedCount se = c) :
    ∀ se, (pqiRest ctx service_name item stall_limit now key downloaded status entry st).2.strikes key =
        some se →
      0 ≤ storedCount se ∧
      (c < storedCount se →
        storedCount se = c + 1 ∧ storedReason se ≠ some "progress") ∧
      (storedCount se < c →
        storedReason se = some "progress" ∧
        storedCount se = reset_count c ctx.reset_strikes_on_progress) := by
  subst hcnt
  have hle := reset_count_le entry.count ctx.reset_strikes_on_progress h0
  have hnn := reset_count_nonneg entry.count ctx.reset_strikes_on_progress h0
  simp only [pqiRest, schedule_reannounce]
  repeat' split
  all_goals intro se hse
  all_goals try dsimp only at hse
  all_goals first
    | (rw [updMap_self] at hse
       first
         | exact Option.noConfusion hse
         | (injection hse with hse; subst hse))
    | (have hc := hrel se hse
       refine ⟨?_, fun hlt => ?_, fun hlt => ?_⟩ <;> omega)
  all_goals refine ⟨?_, fun hlt => ?_, fun hlt => ?_⟩
  all_goals simp only [storedCount, storedReason] at *
  any_goals omega
  all_goals refine ⟨?_, ?_⟩
  any_goals trivial
  all_goals (simp only [ne_eq, Option.some.injEq]; intro hcontra; subst hcontra)
  all_goals exact evaluate_rules_ne_progress _ _ _ _ _ _ _ _ _ _ _ _ _ _ (by assumption) rfl

theorem storedCount_normalize (raw : StoredEntry) (now : ℚ) :
    storedCount raw = (normalize_strike_entry (some raw) now).count := by
  cases raw <;> simp [storedCount, normalize_strike_entry]

set_option maxHeartbeats 4000000 in
/-- Claim C8 (confirmed): starting from a ledger entry with a
non-negative count, the entry stored at the item's key after
`process_queue_item` (when one is stored) has a non-negative count; a
strict increase is by exactly one and never carries the `progress`
reason, and a strict decrease carries the `progress` reason and follows
the `RESET_STRIKES_ON_PROGRESS` policy (`all` resets to 0; an integer
policy `n` lowers by `max 1 n` but never below 0). -/
theorem C8_count_discipline
    (ctx : Ctx) (service_name : String) (item : Item) (stall_limit : Int)
    (now : ℚ) (st : EngineState) (i : Int)
    (hid : item.id = some i)
    (h0 : 0 ≤ (normalize_strike_entry (st.strikes (make_strike_key service_name i)) now).count) :
    ∀ se, (process_queue_item ctx service_name item stall_limit now st).2.strikes
        (make_strike_key service_name i) = some se →
      0 ≤ storedCount se ∧
      ((normalize_strike_entry (st.strikes (make_strike_key service_name i)) now).count < storedCount se →
        storedCount se =
          (normalize_strike_entry (st.strikes (make_strike_key service_name i)) now).count + 1 ∧
        storedReason se ≠ some "progress") ∧
      (storedCount se < (normalize_strike_entry (st.strikes (make_strike_key service_name i)) now).count →
        storedReason se = some "progress" ∧
        storedCount se =
          reset_count (normalize_strike_entry (st.strikes (make_strike_key service_name i)) now).count
            ctx.reset_strikes_on_progress) := by
  have hframe := pqiRest_count_frame ctx service_name item stall_limit now
    (make_strike_key service_name i) (get_downloaded_bytes item) (optLower item.status)
  simp only [process_queue_item, hid]
  repeat' split
  all_goals intro se hse
  all_goals try dsimp only at hse
  all_goals first
    | (rw [updMap_self] at hse
       first
         | exact Option.noConfusion hse
         | (injection hse with hse; subst hse
            refine ⟨?_, fun hlt => ?_, fun hlt => ?_⟩ <;>
              (simp only [storedCount, storedReason] at *; omega)))
    | (refine hframe _ _ _ ?_ ?_ ?_ se hse
       case _ => rfl
       case _ => exact h0
       case _ =>
         intro se2 h2
         dsimp only at h2
         first
           | (rw [updMap_self] at h2; injection h2 with h2; subst h2; rfl)
           | (rw [h2]; exact storedCount_normalize se2 now))

def stC8w : EngineState := {
  strikes := fun k => if k = "Sonarr:3" then some (.inr { count := 2, last_dl := some 50 }) else none
}

def itemC8w : Item := { id := some 3, size := some 1000, sizeleft := some 800 }

/-- The entry stored for `itemC8w`: the progress path resets the count
to 0 and records the new byte total. -/
def seC8w : StoredEntry :=
  .inr { count := 0, last_dl := some 200, first_seen_ts := some 1000000,
         last_progress_ts := some 1000000, last_reason := some "progress" }

/-- Witness for C8 at a concrete progressing item: count 2 resets to 0
under the `all` policy, carrying the `progress` reason. -/
theorem C8_witness :
    0 ≤ storedCount seC8w ∧
    ((normalize_strike_entry (stC8w.strikes (make_strike_key "Sonarr" 3)) 1000000).count < storedCount seC8w →
      storedCount seC8w =
        (normalize_strike_entry (stC8w.strikes (make_strike_key "Sonarr" 3)) 1000000).count + 1 ∧
      storedReason seC8w ≠ some "progress") ∧
    (storedCount seC8w < (normalize_strike_entry (stC8w.strikes (make_strike_key "Sonarr" 3)) 1000000).count →
      storedReason seC8w = some "progress" ∧
      storedCount seC8w =
        reset_count (normalize_strike_entry (stC8w.strikes (make_strike_key "Sonarr" 3)) 1000000).count
          ({} : Ctx).reset_strikes_on_progress) :=
  C8_count_discipline {} "Sonarr" itemC8w 3 1000000 stC8w 3 rfl (by decide) seC8w (by decide)

end Cleaner
